import Mathlib

/-!
Verification of the farm-asset server handlers of tania-core.

The embedding follows src/src/assets/server/farm_server.go and
src/src/assets/domain/material_events.go. Handlers are modelled as pure
functions from their form inputs and an explicit environment (the results
the repository port would deliver) to a trace of issued calls together
with the final outcome. Domain operations that live outside the two
source files are modelled from the spec and say so in their doc comments.
-/

namespace Tania

/-! ## Validation error taxonomy (section 6 of the spec, NewRequestValidationError) -/

inductive ValidationCode
  | REQUIRED
  | INVALID_OPTION
  | PARSE_FAILED
  | NOT_FOUND
deriving DecidableEq, Repr

structure RequestValidationError where
  code : ValidationCode
  fieldName : String
deriving DecidableEq, Repr

/-- Outcome surfaced by a handler. `validation` wraps a request-validation
or domain error passed to the Error helper; `internalServer` is the fresh
generic error built by echo.NewHTTPError(StatusInternalServerError,
"Internal server error"); `repoErr` is a repository error value passed to
the Error helper untouched. -/
inductive HandlerErr
  | validation (e : RequestValidationError)
  | internalServer
  | repoErr (e : String)
deriving DecidableEq, Repr

instance {ε α : Type _} [DecidableEq ε] [DecidableEq α] : DecidableEq (Except ε α)
  | .ok a, .ok b => decidable_of_iff (a = b) (by simp)
  | .error a, .error b => decidable_of_iff (a = b) (by simp)
  | .ok _, .error _ => isFalse (fun h => Except.noConfusion h)
  | .error _, .ok _ => isFalse (fun h => Except.noConfusion h)

/-! ## Numeric and date parsing (Go strconv.ParseFloat and time.Parse) -/

def digitsToNat (cs : List Char) : Nat :=
  cs.foldl (fun a c => a * 10 + (c.toNat - 48)) 0

/-- Model of strconv.ParseFloat on decimal literals: optional sign, then
digits with at most one dot and at least one digit. Exponent, hex and
Inf/NaN forms of Go are not modelled; no claim exercises them. -/
def parseFloat (s : String) : Option Rat :=
  let core : List Char → Option Rat := fun cs =>
    let intPart := cs.takeWhile Char.isDigit
    let rest := cs.dropWhile Char.isDigit
    match rest with
    | [] => if intPart = [] then none else some ((digitsToNat intPart : Nat) : Rat)
    | '.' :: frac =>
        if (intPart = [] ∧ frac = []) ∨ ¬ (frac.all Char.isDigit) then none
        else some (((digitsToNat intPart : Nat) : Rat) +
          ((digitsToNat frac : Nat) : Rat) / ((10 : Rat) ^ frac.length))
    | _ => none
  match s.toList with
  | '-' :: t => (core t).map (fun r => -r)
  | '+' :: t => core t
  | t => core t

structure Date where
  year : Nat
  month : Nat
  day : Nat
deriving DecidableEq, Repr

def isLeapYear (y : Nat) : Bool :=
  (y % 4 == 0 && y % 100 != 0) || (y % 400 == 0)

def daysInMonth (y m : Nat) : Nat :=
  if m == 2 then (if isLeapYear y then 29 else 28)
  else if m == 4 || m == 6 || m == 9 || m == 11 then 30
  else 31

/-- Model of Go time.Parse with layout "2006-01-02": exactly four year
digits, two month digits and two day digits separated by dashes, with the
month and day in calendar range. -/
def parseDate (s : String) : Option Date :=
  match s.toList with
  | [y1, y2, y3, y4, '-', m1, m2, '-', d1, d2] =>
    if ([y1, y2, y3, y4, m1, m2, d1, d2].all Char.isDigit) then
      let y := digitsToNat [y1, y2, y3, y4]
      let m := digitsToNat [m1, m2]
      let d := digitsToNat [d1, d2]
      if 1 ≤ m ∧ m ≤ 12 ∧ 1 ≤ d ∧ d ≤ daysInMonth y m then some ⟨y, m, d⟩ else none
    else none
  | _ => none

/-! ## Material domain -/

/-- Modelled from the spec: the collaborator lookup tables of section 6
(plant types, chemical types, container types, currency codes,
country/city codes), each exposing membership of a code. The handlers are
parameterized over them. -/
structure LookupTables where
  plantTypes : List String
  chemicalTypes : List String
  containerTypes : List String
  currencies : List String
  countries : List String
  cities : List String
deriving DecidableEq, Repr

/-- The closed material-type union of spec section 4.5: one tag per
category, three of them carrying a secondary code. -/
inductive MaterialType
  | seed (plantTypeCode : String)
  | agrochemical (chemicalTypeCode : String)
  | growingMedium
  | labelAndCropSupport
  | seedingContainer (containerTypeCode : String)
  | postHarvestSupply
  | other
deriving DecidableEq, Repr

/-- Modelled from the spec: the seven lowercased category codes the
SaveMaterial switch compares the :type path parameter against
(farm_server.go lines 778 to 817 apply strings.ToLower to the domain
constants; the spec names the codes in section 4.5). -/
def materialTypeSeedCode : String := "seed"

def materialTypeAgrochemicalCode : String := "agrochemical"

def materialTypeGrowingMediumCode : String := "growing_medium"

def materialTypeLabelAndCropSupportCode : String := "label_and_crop_support"

def materialTypeSeedingContainerCode : String := "seeding_container"

def materialTypePostHarvestSupplyCode : String := "post_harvest_supply"

def materialTypeOtherCode : String := "other"

def materialTypeCodes : List String :=
  [materialTypeSeedCode, materialTypeAgrochemicalCode, materialTypeGrowingMediumCode,
   materialTypeLabelAndCropSupportCode, materialTypeSeedingContainerCode,
   materialTypePostHarvestSupplyCode, materialTypeOtherCode]

/-- Modelled from the spec: domain.GetPlantType looks the code up in the
plant-type table and yields the zero value when absent; the zero value is
what the handler compares against. Modelled as an Option over codes
(entries with empty codes are not modelled). -/
def GetPlantType (t : LookupTables) (code : String) : Option String :=
  if t.plantTypes.contains code then some code else none

/-- Modelled from the spec: domain.GetChemicalType, as GetPlantType. -/
def GetChemicalType (t : LookupTables) (code : String) : Option String :=
  if t.chemicalTypes.contains code then some code else none

/-- Modelled from the spec: domain.GetContainerType, as GetPlantType. -/
def GetContainerType (t : LookupTables) (code : String) : Option String :=
  if t.containerTypes.contains code then some code else none

/-- Modelled from the spec: constructing the seed variant validates the
secondary code as part of construction (spec sections 4.5 and 9). -/
def CreateMaterialTypeSeed (t : LookupTables) (code : String) :
    Except RequestValidationError MaterialType :=
  if t.plantTypes.contains code then .ok (.seed code)
  else .error ⟨.INVALID_OPTION, "plant_type"⟩

/-- Modelled from the spec: the agrochemical variant constructor. -/
def CreateMaterialTypeAgrochemical (t : LookupTables) (code : String) :
    Except RequestValidationError MaterialType :=
  if t.chemicalTypes.contains code then .ok (.agrochemical code)
  else .error ⟨.INVALID_OPTION, "chemical_type"⟩

/-- Modelled from the spec: the seeding-container variant constructor. -/
def CreateMaterialTypeSeedingContainer (t : LookupTables) (code : String) :
    Except RequestValidationError MaterialType :=
  if t.containerTypes.contains code then .ok (.seedingContainer code)
  else .error ⟨.INVALID_OPTION, "container_type"⟩

structure PricePerUnit where
  amount : String
  currencyCode : String
deriving DecidableEq, Repr

structure MaterialQuantity where
  value : Rat
  unit : String
deriving DecidableEq, Repr

/-- The Material aggregate of spec section 3. The material type is an
Option because the Go field is an interface value the handler may leave
at its zero (nil) value. -/
structure Material where
  uid : String
  name : String
  pricePerUnit : PricePerUnit
  typ : Option MaterialType
  quantity : MaterialQuantity
  expirationDate : Option Date
  notes : Option String
  producedBy : Option String
  isExpense : Option Bool
  createdDate : Nat
deriving DecidableEq, Repr

/-- Modelled from the spec: domain.CreateMaterial is not under src/.
Section 4.5: name required; the price amount must parse as a non-negative
number with a recognized currency code; quantity must be non-negative.
The material-type argument is the possibly-nil interface value the
handler resolved; the spec assigns category validation to the variant
resolution, not to CreateMaterial, so it is stored as given. The uid and
creation time are passed in explicitly. -/
def CreateMaterial (t : LookupTables) (uid : String) (now : Nat)
    (name priceAmount currencyCode : String) (mt : Option MaterialType)
    (quantityValue : Rat) (quantityUnit : String) :
    Except RequestValidationError Material :=
  if name = "" then .error ⟨.REQUIRED, "name"⟩
  else match parseFloat priceAmount with
  | none => .error ⟨.PARSE_FAILED, "price_per_unit"⟩
  | some p =>
    if p < 0 then .error ⟨.INVALID_OPTION, "price_per_unit"⟩
    else if ¬ (t.currencies.contains currencyCode) then .error ⟨.INVALID_OPTION, "currency_code"⟩
    else if quantityValue < 0 then .error ⟨.INVALID_OPTION, "quantity"⟩
    else .ok
      { uid := uid
        name := name
        pricePerUnit := ⟨priceAmount, currencyCode⟩
        typ := mt
        quantity := ⟨quantityValue, quantityUnit⟩
        expirationDate := none
        notes := none
        producedBy := none
        isExpense := none
        createdDate := now }

/-! ## SaveMaterial handler (farm_server.go lines 725 to 838) -/

/-- The raw request of SaveMaterial: the :type path parameter and the
form values read on lines 728 to 742. -/
structure MaterialForm where
  materialTypeParam : String
  name : String
  plantType : String
  chemicalType : String
  containerType : String
  pricePerUnit : String
  currencyCode : String
  quantity : String
  quantityUnit : String
  expirationDate : String
  notes : String
  isExpense : String
  producedBy : String
deriving DecidableEq, Repr

/-- Calls SaveMaterial issues after validation. -/
inductive MAction
  | createMaterial
  | saveMaterial
deriving DecidableEq, Repr

/-- Lines 750 to 758: the expiration date is parsed only when the raw
text is non-empty; malformed text fails PARSE_FAILED on
expiration_date. -/
def parseExpirationDate (s : String) : Except RequestValidationError (Option Date) :=
  if s = "" then .ok none
  else match parseDate s with
    | none => .error ⟨.PARSE_FAILED, "expiration_date"⟩
    | some d => .ok (some d)

/-- Lines 760 to 768: notes and producedBy pointers are set only when the
raw text is non-empty. -/
def optStr (s : String) : Option String :=
  if s = "" then none else some s

/-- Lines 770 to 774: the isExpense pointer is set (to true) only when
the raw text is non-empty and equals "true". -/
def parseIsExpense (s : String) : Option Bool :=
  if s ≠ "" ∧ s = "true" then some true else none

/-- Lines 777 to 817: the switch on the :type path parameter. Each
recognized category resolves its variant, validating the secondary code
where one is required. The switch has no default case: an unrecognized
category leaves mt at the zero (nil) interface value, modelled as
none. -/
def resolveMaterialType (t : LookupTables) (f : MaterialForm) :
    Except RequestValidationError (Option MaterialType) :=
  if f.materialTypeParam = materialTypeSeedCode then
    match GetPlantType t f.plantType with
    | none => .error ⟨.INVALID_OPTION, "plant_type"⟩
    | some code =>
      match CreateMaterialTypeSeed t code with
      | .error _ => .error ⟨.INVALID_OPTION, "type"⟩
      | .ok mt => .ok (some mt)
  else if f.materialTypeParam = materialTypeAgrochemicalCode then
    match GetChemicalType t f.chemicalType with
    | none => .error ⟨.INVALID_OPTION, "chemical_type"⟩
    | some code =>
      match CreateMaterialTypeAgrochemical t code with
      | .error _ => .error ⟨.INVALID_OPTION, "type"⟩
      | .ok mt => .ok (some mt)
  else if f.materialTypeParam = materialTypeGrowingMediumCode then
    .ok (some .growingMedium)
  else if f.materialTypeParam = materialTypeLabelAndCropSupportCode then
    .ok (some .labelAndCropSupport)
  else if f.materialTypeParam = materialTypeSeedingContainerCode then
    match GetContainerType t f.containerType with
    | none => .error ⟨.INVALID_OPTION, "container_type"⟩
    | some code =>
      match CreateMaterialTypeSeedingContainer t code with
      | .error _ => .error ⟨.INVALID_OPTION, "type"⟩
      | .ok mt => .ok (some mt)
  else if f.materialTypeParam = materialTypePostHarvestSupplyCode then
    .ok (some .postHarvestSupply)
  else if f.materialTypeParam = materialTypeOtherCode then
    .ok (some .other)
  else
    .ok none

/-- SaveMaterial (lines 725 to 838): parse the quantity (failing
INVALID_OPTION on "quantity"), parse the optional fields, resolve the
material-type variant through the switch, construct the Material, set
the optional fields on it, then issue the repository save. The uid and
time of the created aggregate and the outcome the repository delivers
for the save are environment arguments. The first component is the trace
of construction and persistence calls issued. -/
def SaveMaterial (t : LookupTables) (uid : String) (now : Nat)
    (saveResult : Option String) (f : MaterialForm) :
    List MAction × Except HandlerErr Material :=
  match parseFloat f.quantity with
  | none => ([], .error (.validation ⟨.INVALID_OPTION, "quantity"⟩))
  | some q =>
  match parseExpirationDate f.expirationDate with
  | .error e => ([], .error (.validation e))
  | .ok expDate =>
  let n := optStr f.notes
  let pb := optStr f.producedBy
  let isExpenseBool := parseIsExpense f.isExpense
  match resolveMaterialType t f with
  | .error e => ([], .error (.validation e))
  | .ok mt =>
  match CreateMaterial t uid now f.name f.pricePerUnit f.currencyCode mt q f.quantityUnit with
  | .error e => ([MAction.createMaterial], .error (.validation e))
  | .ok material =>
  let material := { material with
    expirationDate := expDate
    notes := n
    producedBy := pb
    isExpense := isExpenseBool }
  match saveResult with
  | some e => ([MAction.createMaterial, MAction.saveMaterial], .error (.repoErr e))
  | none => ([MAction.createMaterial, MAction.saveMaterial], .ok material)

/-! ## Material transition records (src/src/assets/domain/material_events.go) -/

/-- Lines 9 to 19 of material_events.go: the creation record. It carries
the uid, name, price, type, quantity, expiration date, notes, producedBy
and creation time; the Go struct declares no IsExpense field. -/
structure MaterialCreated where
  uid : String
  name : String
  pricePerUnit : PricePerUnit
  typ : Option MaterialType
  quantity : MaterialQuantity
  expirationDate : Option Date
  notes : Option String
  producedBy : Option String
  createdDate : Nat
deriving DecidableEq, Repr

/-- Lines 21 to 24 of material_events.go. -/
structure MaterialNameChanged where
  materialUID : String
  name : String
deriving DecidableEq, Repr

/-- Lines 26 to 29 of material_events.go. -/
structure MaterialPriceChanged where
  materialUID : String
  price : PricePerUnit
deriving DecidableEq, Repr

/-- Lines 31 to 34 of material_events.go. -/
structure MaterialQuantityChanged where
  materialUID : String
  quantity : MaterialQuantity
deriving DecidableEq, Repr

/-- Lines 36 to 39 of material_events.go. -/
structure MaterialTypeChanged where
  materialUID : String
  materialType : MaterialType
deriving DecidableEq, Repr

/-- Lines 41 to 44 of material_events.go; the Go field is a plain
time.Time, not a pointer. -/
structure MaterialExpirationDateChanged where
  materialUID : String
  expirationDate : Date
deriving DecidableEq, Repr

/-- Lines 46 to 49 of material_events.go. -/
structure MaterialNotesChanged where
  materialUID : String
  notes : String
deriving DecidableEq, Repr

/-- Lines 51 to 54 of material_events.go. -/
structure MaterialProducedByChanged where
  materialUID : String
  producedBy : String
deriving DecidableEq, Repr

/-- The closed union of the eight record types material_events.go
declares. -/
inductive MaterialEvent
  | created (e : MaterialCreated)
  | nameChanged (e : MaterialNameChanged)
  | priceChanged (e : MaterialPriceChanged)
  | quantityChanged (e : MaterialQuantityChanged)
  | typeChanged (e : MaterialTypeChanged)
  | expirationDateChanged (e : MaterialExpirationDateChanged)
  | notesChanged (e : MaterialNotesChanged)
  | producedByChanged (e : MaterialProducedByChanged)
deriving DecidableEq, Repr

/-- The eight Material mutation kinds of spec section 3. -/
inductive MaterialEventKind
  | creation
  | nameChange
  | priceChange
  | quantityChange
  | typeChange
  | expirationChange
  | notesChange
  | producedByChange
deriving DecidableEq, Repr

def MaterialEvent.kind : MaterialEvent → MaterialEventKind
  | .created _ => .creation
  | .nameChanged _ => .nameChange
  | .priceChanged _ => .priceChange
  | .quantityChanged _ => .quantityChange
  | .typeChanged _ => .typeChange
  | .expirationDateChanged _ => .expirationChange
  | .notesChanged _ => .notesChange
  | .producedByChanged _ => .producedByChange

/-- Every record type carries the identifier of the material aggregate. -/
def MaterialEvent.aggregateUID : MaterialEvent → String
  | .created e => e.uid
  | .nameChanged e => e.materialUID
  | .priceChanged e => e.materialUID
  | .quantityChanged e => e.materialUID
  | .typeChanged e => e.materialUID
  | .expirationDateChanged e => e.materialUID
  | .notesChanged e => e.materialUID
  | .producedByChanged e => e.materialUID

/-- The new value a record carries besides the aggregate identifier: the
full initial state for the creation record, the single changed field
otherwise. -/
inductive MaterialEventValue
  | allInitial (name : String) (price : PricePerUnit) (typ : Option MaterialType)
      (quantity : MaterialQuantity) (expirationDate : Option Date)
      (notes : Option String) (producedBy : Option String) (createdDate : Nat)
  | newName (v : String)
  | newPrice (v : PricePerUnit)
  | newQuantity (v : MaterialQuantity)
  | newType (v : MaterialType)
  | newExpirationDate (v : Date)
  | newNotes (v : String)
  | newProducedBy (v : String)
deriving DecidableEq, Repr

def MaterialEvent.value : MaterialEvent → MaterialEventValue
  | .created e => .allInitial e.name e.pricePerUnit e.typ e.quantity
      e.expirationDate e.notes e.producedBy e.createdDate
  | .nameChanged e => .newName e.name
  | .priceChanged e => .newPrice e.price
  | .quantityChanged e => .newQuantity e.quantity
  | .typeChanged e => .newType e.materialType
  | .expirationDateChanged e => .newExpirationDate e.expirationDate
  | .notesChanged e => .newNotes e.notes
  | .producedByChanged e => .newProducedBy e.producedBy

/-- The creation record built for a Material: one field per field the Go
struct MaterialCreated declares (material_events.go lines 9 to 19). -/
def Material.toCreatedEvent (m : Material) : MaterialCreated :=
  ⟨m.uid, m.name, m.pricePerUnit, m.typ, m.quantity,
   m.expirationDate, m.notes, m.producedBy, m.createdDate⟩

/-! ## Notes, Reservoir, Area, Farm -/

structure DomainNote where
  uid : String
  content : String
  createdDate : Nat
deriving DecidableEq, Repr

/-- The Reservoir aggregate; farmUid stands for the UID of the embedded
Farm back-reference the handlers read (reservoir.Farm.UID). -/
structure Reservoir where
  uid : String
  farmUid : String
  name : String
  notes : List DomainNote
deriving DecidableEq, Repr

structure AreaPhoto where
  filename : String
  mimeType : String
  size : Nat
  width : Nat
  height : Nat
deriving DecidableEq, Repr

/-- The Area aggregate; the photo is a plain struct whose zero filename
means no photo is attached, exactly as the Go field. -/
structure Area where
  uid : String
  farmUid : String
  name : String
  photo : AreaPhoto
  notes : List DomainNote
deriving DecidableEq, Repr

/-- The Farm aggregate with its denormalized child mirrors. -/
structure Farm where
  uid : String
  name : String
  reservoirs : List Reservoir
  areas : List Area
deriving DecidableEq, Repr

/-- Modelled from the spec: add note requires non-empty content, else
REQUIRED; a fresh note id and creation time are passed in. -/
def Reservoir.addNewNote (r : Reservoir) (noteUID : String) (now : Nat)
    (content : String) : Except RequestValidationError Reservoir :=
  if content = "" then .error ⟨.REQUIRED, "content"⟩
  else .ok { r with notes := ⟨noteUID, content, now⟩ :: r.notes }

/-- Modelled from the spec: remove note by id fails NOT_FOUND when the id
is absent. -/
def Reservoir.removeNote (r : Reservoir) (noteUID : String) :
    Except RequestValidationError Reservoir :=
  if r.notes.any (fun n => n.uid == noteUID) then
    .ok { r with notes := r.notes.filter (fun n => n.uid != noteUID) }
  else .error ⟨.NOT_FOUND, "notes"⟩

/-- Modelled from the spec: add note on an Area, as on a Reservoir. -/
def Area.addNewNote (a : Area) (noteUID : String) (now : Nat)
    (content : String) : Except RequestValidationError Area :=
  if content = "" then .error ⟨.REQUIRED, "content"⟩
  else .ok { a with notes := ⟨noteUID, content, now⟩ :: a.notes }

/-- Modelled from the spec: remove note on an Area, as on a Reservoir. -/
def Area.removeNote (a : Area) (noteUID : String) :
    Except RequestValidationError Area :=
  if a.notes.any (fun n => n.uid == noteUID) then
    .ok { a with notes := a.notes.filter (fun n => n.uid != noteUID) }
  else .error ⟨.NOT_FOUND, "notes"⟩

/-- Modelled from the spec: syncReservoirInfo replaces the matching
mirror entry by id and fails NOT_FOUND when no entry matches
(spec section 4.2). -/
def Farm.changeReservoirInformation (f : Farm) (r : Reservoir) :
    Except RequestValidationError Farm :=
  if f.reservoirs.any (fun x => x.uid == r.uid) then
    .ok { f with reservoirs := f.reservoirs.map (fun x => if x.uid == r.uid then r else x) }
  else .error ⟨.NOT_FOUND, "reservoir"⟩

/-- Modelled from the spec: syncAreaInfo, as syncReservoirInfo. -/
def Farm.changeAreaInformation (f : Farm) (a : Area) :
    Except RequestValidationError Farm :=
  if f.areas.any (fun x => x.uid == a.uid) then
    .ok { f with areas := f.areas.map (fun x => if x.uid == a.uid then a else x) }
  else .error ⟨.NOT_FOUND, "area"⟩

/-! ## Farm creation (spec-modelled domain operations used by SaveFarm) -/

/-- Modelled from the spec: the recognized farm-type set is elided in the
spec; "organic" is the one code the spec names (section 8). -/
def farmTypes : List String := ["organic"]

/-- Modelled from the spec: domain.CreateFarm fails if the name is empty
or the type is not recognized (spec section 4.2). The new uid is passed
in. -/
def CreateFarm (uid name farmType : String) : Except RequestValidationError Farm :=
  if name = "" then .error ⟨.REQUIRED, "name"⟩
  else if farmTypes.contains farmType then
    .ok { uid := uid, name := name, reservoirs := [], areas := [] }
  else .error ⟨.INVALID_OPTION, "farm_type"⟩

/-- Modelled from the spec: both coordinates must parse as numbers within
the valid range, else PARSE_FAILED or INVALID_OPTION (spec section 4.2).
The claims never read the stored coordinates, so the farm value is
returned unchanged on success. -/
def Farm.changeGeoLocation (f : Farm) (lat lon : String) :
    Except RequestValidationError Farm :=
  match parseFloat lat, parseFloat lon with
  | some la, some lo =>
    if la < -90 ∨ 90 < la then .error ⟨.INVALID_OPTION, "latitude"⟩
    else if lo < -180 ∨ 180 < lo then .error ⟨.INVALID_OPTION, "longitude"⟩
    else .ok f
  | _, _ => .error ⟨.PARSE_FAILED, "latitude"⟩

/-- Modelled from the spec: both region codes must resolve against the
recognized country and city tables (spec section 4.2). -/
def Farm.changeRegion (t : LookupTables) (f : Farm) (countryCode cityCode : String) :
    Except RequestValidationError Farm :=
  if ¬ (t.countries.contains countryCode) then .error ⟨.INVALID_OPTION, "country_code"⟩
  else if ¬ (t.cities.contains cityCode) then .error ⟨.INVALID_OPTION, "city_code"⟩
  else .ok f

/-! ## Handler call traces -/

/-- Repository and domain calls the reservoir, area and farm handlers
issue, in order. -/
inductive Action
  | findReservoirByID
  | findAreaByID
  | findFarmByID
  | addNewNote
  | removeNote
  | changeReservoirInformation
  | changeAreaInformation
  | saveReservoir
  | saveArea
  | saveFarm
deriving DecidableEq, Repr

def Action.isMutateNote : Action → Bool
  | .addNewNote => true
  | .removeNote => true
  | _ => false

def Action.isSync : Action → Bool
  | .changeReservoirInformation => true
  | .changeAreaInformation => true
  | _ => false

def Action.isSave : Action → Bool
  | .saveReservoir => true
  | .saveArea => true
  | .saveFarm => true
  | _ => false

/-- Scans a trace with a small state machine: state 0 before any note
mutation, state 1 after a note mutation, state 2 once a sync call has
followed the mutation. Every save call must happen in state 2, i.e.
after a note mutation followed by a Farm-side sync call. -/
def noteSyncDisciplineFrom : Nat → List Action → Bool
  | _, [] => true
  | st, a :: rest =>
    if a.isMutateNote then noteSyncDisciplineFrom 1 rest
    else if a.isSync then noteSyncDisciplineFrom (if st == 1 then 2 else st) rest
    else if a.isSave then st == 2 && noteSyncDisciplineFrom st rest
    else noteSyncDisciplineFrom st rest

def noteSyncDiscipline (tr : List Action) : Bool :=
  noteSyncDisciplineFrom 0 tr

/-! ## Farm, reservoir-note and area-note handlers -/

/-- SaveFarm (farm_server.go lines 116 to 142): create the farm, change
its geolocation and region, then save, propagating a save error to the
caller unchanged through the Error helper. -/
def SaveFarm (t : LookupTables) (uid : String)
    (name farmType latitude longitude countryCode cityCode : String)
    (saveResult : Option String) : List Action × Except HandlerErr Farm :=
  match CreateFarm uid name farmType with
  | .error e => ([], .error (.validation e))
  | .ok farm =>
  match farm.changeGeoLocation latitude longitude with
  | .error e => ([], .error (.validation e))
  | .ok farm =>
  match Farm.changeRegion t farm countryCode cityCode with
  | .error e => ([], .error (.validation e))
  | .ok farm =>
  match saveResult with
  | some e => ([Action.saveFarm], .error (.repoErr e))
  | none => ([Action.saveFarm], .ok farm)

/-- SaveReservoirNotes (farm_server.go lines 236 to 290): find the
reservoir and its farm (propagating find errors), require non-empty
content, add the note, sync the farm mirror with the result of
ChangeReservoirInformation discarded, then save the reservoir and the
farm; each failed save is replaced by the generic internal server
error. -/
def SaveReservoirNotes (findReservoir : Except String Reservoir)
    (findFarm : Except String Farm) (noteUID : String) (now : Nat)
    (saveReservoirResult saveFarmResult : Option String) (content : String) :
    List Action × Except HandlerErr Reservoir :=
  match findReservoir with
  | .error e => ([Action.findReservoirByID], .error (.repoErr e))
  | .ok reservoir =>
  match findFarm with
  | .error e => ([Action.findReservoirByID, Action.findFarmByID], .error (.repoErr e))
  | .ok farm =>
  if content = "" then
    ([Action.findReservoirByID, Action.findFarmByID],
     .error (.validation ⟨.REQUIRED, "content"⟩))
  else
    let reservoir := match reservoir.addNewNote noteUID now content with
      | .ok r => r
      | .error _ => reservoir
    let _farm := match farm.changeReservoirInformation reservoir with
      | .ok f => f
      | .error _ => farm
    let tr := [Action.findReservoirByID, Action.findFarmByID,
               Action.addNewNote, Action.changeReservoirInformation]
    match saveReservoirResult with
    | some _ => (tr ++ [Action.saveReservoir], .error .internalServer)
    | none =>
      match saveFarmResult with
      | some _ => (tr ++ [Action.saveReservoir, Action.saveFarm], .error .internalServer)
      | none => (tr ++ [Action.saveReservoir, Action.saveFarm], .ok reservoir)

/-- RemoveReservoirNotes (farm_server.go lines 292 to 349): find the
reservoir and its farm, remove the note (propagating its error), sync
the farm mirror and abort on a sync error, then save the reservoir and
the farm; each failed save is replaced by the generic internal server
error. -/
def RemoveReservoirNotes (findReservoir : Except String Reservoir)
    (findFarm : Except String Farm) (noteID : String)
    (saveReservoirResult saveFarmResult : Option String) :
    List Action × Except HandlerErr Reservoir :=
  match findReservoir with
  | .error e => ([Action.findReservoirByID], .error (.repoErr e))
  | .ok reservoir =>
  match findFarm with
  | .error e => ([Action.findReservoirByID, Action.findFarmByID], .error (.repoErr e))
  | .ok farm =>
  match reservoir.removeNote noteID with
  | .error e =>
    ([Action.findReservoirByID, Action.findFarmByID, Action.removeNote],
     .error (.validation e))
  | .ok reservoir =>
  match farm.changeReservoirInformation reservoir with
  | .error e =>
    ([Action.findReservoirByID, Action.findFarmByID, Action.removeNote,
      Action.changeReservoirInformation], .error (.validation e))
  | .ok _farm =>
  let tr := [Action.findReservoirByID, Action.findFarmByID,
             Action.removeNote, Action.changeReservoirInformation]
  match saveReservoirResult with
  | some _ => (tr ++ [Action.saveReservoir], .error .internalServer)
  | none =>
    match saveFarmResult with
    | some _ => (tr ++ [Action.saveReservoir, Action.saveFarm], .error .internalServer)
    | none => (tr ++ [Action.saveReservoir, Action.saveFarm], .ok reservoir)

/-- SaveAreaNotes (farm_server.go lines 511 to 565): as
SaveReservoirNotes, over an Area, with the result of
ChangeAreaInformation discarded. -/
def SaveAreaNotes (findArea : Except String Area)
    (findFarm : Except String Farm) (noteUID : String) (now : Nat)
    (saveAreaResult saveFarmResult : Option String) (content : String) :
    List Action × Except HandlerErr Area :=
  match findArea with
  | .error e => ([Action.findAreaByID], .error (.repoErr e))
  | .ok area =>
  match findFarm with
  | .error e => ([Action.findAreaByID, Action.findFarmByID], .error (.repoErr e))
  | .ok farm =>
  if content = "" then
    ([Action.findAreaByID, Action.findFarmByID],
     .error (.validation ⟨.REQUIRED, "content"⟩))
  else
    let area := match area.addNewNote noteUID now content with
      | .ok a => a
      | .error _ => area
    let _farm := match farm.changeAreaInformation area with
      | .ok f => f
      | .error _ => farm
    let tr := [Action.findAreaByID, Action.findFarmByID,
               Action.addNewNote, Action.changeAreaInformation]
    match saveAreaResult with
    | some _ => (tr ++ [Action.saveArea], .error .internalServer)
    | none =>
      match saveFarmResult with
      | some _ => (tr ++ [Action.saveArea, Action.saveFarm], .error .internalServer)
      | none => (tr ++ [Action.saveArea, Action.saveFarm], .ok area)

/-- RemoveAreaNotes (farm_server.go lines 567 to 624): as
RemoveReservoirNotes, over an Area. -/
def RemoveAreaNotes (findArea : Except String Area)
    (findFarm : Except String Farm) (noteID : String)
    (saveAreaResult saveFarmResult : Option String) :
    List Action × Except HandlerErr Area :=
  match findArea with
  | .error e => ([Action.findAreaByID], .error (.repoErr e))
  | .ok area =>
  match findFarm with
  | .error e => ([Action.findAreaByID, Action.findFarmByID], .error (.repoErr e))
  | .ok farm =>
  match area.removeNote noteID with
  | .error e =>
    ([Action.findAreaByID, Action.findFarmByID, Action.removeNote],
     .error (.validation e))
  | .ok area =>
  match farm.changeAreaInformation area with
  | .error e =>
    ([Action.findAreaByID, Action.findFarmByID, Action.removeNote,
      Action.changeAreaInformation], .error (.validation e))
  | .ok _farm =>
  let tr := [Action.findAreaByID, Action.findFarmByID,
             Action.removeNote, Action.changeAreaInformation]
  match saveAreaResult with
  | some _ => (tr ++ [Action.saveArea], .error .internalServer)
  | none =>
    match saveFarmResult with
    | some _ => (tr ++ [Action.saveArea, Action.saveFarm], .error .internalServer)
    | none => (tr ++ [Action.saveArea, Action.saveFarm], .ok area)

/-- GetAreaPhotos (farm_server.go lines 683 to 713): find the farm and
the area (propagating find errors), fail NOT_FOUND on "photo" when the
stored photo filename is empty, otherwise serve the stored file from the
upload directory. The ok value is the path of the file served. -/
def GetAreaPhotos (uploadPathArea : String)
    (findFarm : Except String Farm) (findArea : Except String Area) :
    Except HandlerErr String :=
  match findFarm with
  | .error e => .error (.repoErr e)
  | .ok _ =>
  match findArea with
  | .error e => .error (.repoErr e)
  | .ok area =>
  if area.photo.filename = "" then .error (.validation ⟨.NOT_FOUND, "photo"⟩)
  else .ok (uploadPathArea ++ "/" ++ area.photo.filename)

/-! ## Concrete fixtures used by witnesses and counterexamples -/

def sampleTables : LookupTables :=
  ⟨["vegetable"], ["organophosphate"], ["tray"], ["IDR"], ["ID"], ["JK"]⟩

def sampleForm : MaterialForm :=
  ⟨"seed", "n1", "vegetable", "", "", "10", "IDR", "5", "pcs", "", "", "", ""⟩

def sampleReservoir : Reservoir := ⟨"r1", "f1", "R1", [⟨"note1", "old", 1⟩]⟩

def sampleFarmEmpty : Farm := ⟨"f1", "F1", [], []⟩

def sampleFarmMirrored : Farm :=
  ⟨"f1", "F1", [⟨"r1", "f1", "R1", [⟨"note1", "old", 1⟩]⟩],
   [⟨"a1", "f1", "A1", ⟨"p.jpg", "image/jpeg", 10, 4, 3⟩, [⟨"note1", "old", 1⟩]⟩]⟩

def sampleArea : Area := ⟨"a1", "f1", "A1", ⟨"p.jpg", "image/jpeg", 10, 4, 3⟩, [⟨"note1", "old", 1⟩]⟩

def sampleAreaNoPhoto : Area := ⟨"a2", "f1", "A2", ⟨"", "", 0, 0, 0⟩, []⟩

/-- The SaveMaterial request of the C1 failing input: the category code
"fertilizer" is not one of the seven recognized codes; every other field
is valid. -/
def formUnknownCategory : MaterialForm :=
  { sampleForm with materialTypeParam := "fertilizer" }

/-- The Material the handler constructs and saves on the C1 failing
input: its type is the zero (nil) value. -/
def materialNoType : Material :=
  ⟨"u", "n1", ⟨"10", "IDR"⟩, none, ⟨5, "pcs"⟩, none, none, none, none, 7⟩

/-- The C4 counterexample request: is_expense carries the non-empty text
"false". -/
def formIsExpenseFalse : MaterialForm := { sampleForm with isExpense := "false" }

/-- The Material produced on the C4 counterexample request: isExpense is
left absent. -/
def materialSeedNoExpense : Material :=
  ⟨"u", "n1", ⟨"10", "IDR"⟩, some (.seed "vegetable"), ⟨5, "pcs"⟩, none, none, none, none, 7⟩

/-- A fully optional-field request used by witnesses. -/
def formAllOptions : MaterialForm :=
  ⟨"seed", "n1", "vegetable", "", "", "10", "IDR", "5", "pcs",
   "2020-01-02", "good batch", "true", "acme"⟩

/-- The Material produced from formAllOptions. -/
def materialAllOptions : Material :=
  ⟨"u", "n1", ⟨"10", "IDR"⟩, some (.seed "vegetable"), ⟨5, "pcs"⟩,
   some ⟨2020, 1, 2⟩, some "good batch", some "acme", some true, 7⟩

/-- Two Materials that differ only in isExpense: the creation record of
material_events.go carries no isExpense field, so both yield the same
record. -/
def materialExpenseTrue : Material :=
  ⟨"u", "n1", ⟨"10", "IDR"⟩, none, ⟨5, "pcs"⟩, none, none, none, some true, 7⟩

def materialExpenseAbsent : Material := { materialExpenseTrue with isExpense := none }

/-! ## Helper lemmas -/

theorem parseExpirationDate_ok_none_iff {s : String} {v : Option Date}
    (h : parseExpirationDate s = Except.ok v) : v = none ↔ s = "" := by
  unfold parseExpirationDate at h
  by_cases hs : s = ""
  · rw [if_pos hs] at h
    simp at h
    simp [hs, ← h]
  · rw [if_neg hs] at h
    rcases hd : parseDate s with _ | d <;> rw [hd] at h
    · simp at h
    · simp at h
      simp [hs, ← h]

theorem parseExpirationDate_fails {s : String} (hs : s ≠ "")
    (hd : parseDate s = none) :
    parseExpirationDate s = Except.error ⟨.PARSE_FAILED, "expiration_date"⟩ := by
  unfold parseExpirationDate
  rw [if_neg hs, hd]

theorem optStr_none_iff (s : String) : optStr s = none ↔ s = "" := by
  unfold optStr
  by_cases hs : s = "" <;> simp [hs]

theorem parseIsExpense_none_iff (s : String) : parseIsExpense s = none ↔ s ≠ "true" := by
  unfold parseIsExpense
  by_cases hs : s = "true"
  · subst hs
    simp
  · simp [hs]

theorem parseIsExpense_cases (s : String) :
    parseIsExpense s = none ∨ parseIsExpense s = some true := by
  unfold parseIsExpense
  by_cases hs : s ≠ "" ∧ s = "true" <;> simp [hs]

/-- Every ok outcome of SaveMaterial sets the four optional fields from
the raw inputs through parseExpirationDate, optStr and parseIsExpense,
and the trace is exactly the construction followed by the save. -/
theorem SaveMaterial_ok_shape {t : LookupTables} {uid : String} {now : Nat}
    {sr : Option String} {f : MaterialForm} {tr : List MAction} {m : Material}
    (h : SaveMaterial t uid now sr f = (tr, Except.ok m)) :
    parseExpirationDate f.expirationDate = Except.ok m.expirationDate ∧
    m.notes = optStr f.notes ∧
    m.producedBy = optStr f.producedBy ∧
    m.isExpense = parseIsExpense f.isExpense ∧
    tr = [MAction.createMaterial, MAction.saveMaterial] := by
  unfold SaveMaterial at h
  split at h
  · simp at h
  split at h
  · simp at h
  split at h
  · simp at h
  split at h
  · simp at h
  split at h
  · simp at h
  simp at h
  obtain ⟨htr, hm⟩ := h
  subst htr
  subst hm
  simp_all

/-! ## Claims on SaveMaterial -/

/-- C1: the claim fails on the code. The SaveMaterial switch
(farm_server.go lines 777 to 817) has no default case, so for the
category code "fertilizer", which is not one of the seven recognized
codes, no INVALID_OPTION error is raised: the variant resolution falls
through with the zero (nil) material type, CreateMaterial is called, and
a Material whose type is absent is constructed and saved. -/
theorem claim1_unknown_category_constructs_material :
    resolveMaterialType sampleTables formUnknownCategory = Except.ok none ∧
    SaveMaterial sampleTables "u" 7 none formUnknownCategory
      = ([MAction.createMaterial, MAction.saveMaterial], Except.ok materialNoType) ∧
    formUnknownCategory.materialTypeParam ∉ materialTypeCodes ∧
    materialNoType.typ = none := by
  decide

/-- C3 counterexample: with quantity text "abc" the handler fails with a
validation error of kind INVALID_OPTION, not PARSE_FAILED, on field
quantity (farm_server.go lines 745 to 748). -/
theorem claim3_counterexample_quantity_kind :
    SaveMaterial sampleTables "u" 7 none { sampleForm with quantity := "abc" }
      = ([], Except.error (.validation ⟨.INVALID_OPTION, "quantity"⟩)) ∧
    ValidationCode.INVALID_OPTION ≠ ValidationCode.PARSE_FAILED := by
  decide

/-- C3 amended: for every quantity text that does not parse as a number,
SaveMaterial fails with a validation error of kind INVALID_OPTION tagged
with field quantity, and the empty trace shows no Material is
constructed and no save is issued. -/
theorem claim3_quantity_parse_failure (t : LookupTables) (uid : String) (now : Nat)
    (sr : Option String) (f : MaterialForm) (h : parseFloat f.quantity = none) :
    SaveMaterial t uid now sr f
      = ([], Except.error (.validation ⟨.INVALID_OPTION, "quantity"⟩)) := by
  unfold SaveMaterial
  rw [h]

/-- C3 witness: the amended theorem applied to the quantity text
"5kg". -/
theorem claim3_quantity_parse_failure_witness :
    SaveMaterial sampleTables "u" 7 none { sampleForm with quantity := "5kg" }
      = ([], Except.error (.validation ⟨.INVALID_OPTION, "quantity"⟩)) :=
  claim3_quantity_parse_failure sampleTables "u" 7 none _ (by decide)

/-- C4 counterexample: the request carries the non-empty is_expense text
"false", yet the constructed Material leaves isExpense absent, so the
optional fields are not set whenever the raw input is non-empty. -/
theorem claim4_counterexample_is_expense_false :
    SaveMaterial sampleTables "u" 7 none formIsExpenseFalse
      = ([MAction.createMaterial, MAction.saveMaterial], Except.ok materialSeedNoExpense) ∧
    formIsExpenseFalse.isExpense = "false" ∧
    materialSeedNoExpense.isExpense = none := by
  decide

/-- C4 amended: on every successful SaveMaterial the expiration date,
notes and producedBy fields are set if and only if the corresponding raw
input is non-empty, while isExpense is set if and only if the raw input
equals "true"; and non-empty expiration-date text that fails date
parsing aborts with PARSE_FAILED on field expiration_date with an empty
trace, before any construction. -/
theorem claim4_optional_fields :
    (∀ (t : LookupTables) (uid : String) (now : Nat) (sr : Option String)
       (f : MaterialForm) (tr : List MAction) (m : Material),
       SaveMaterial t uid now sr f = (tr, Except.ok m) →
       (m.expirationDate = none ↔ f.expirationDate = "") ∧
       m.notes = optStr f.notes ∧ (m.notes = none ↔ f.notes = "") ∧
       m.producedBy = optStr f.producedBy ∧ (m.producedBy = none ↔ f.producedBy = "") ∧
       (m.isExpense = none ↔ f.isExpense ≠ "true")) ∧
    (∀ (t : LookupTables) (uid : String) (now : Nat) (sr : Option String)
       (f : MaterialForm) (q : Rat),
       parseFloat f.quantity = some q → f.expirationDate ≠ "" →
       parseDate f.expirationDate = none →
       SaveMaterial t uid now sr f
         = ([], Except.error (.validation ⟨.PARSE_FAILED, "expiration_date"⟩))) := by
  constructor
  · intro t uid now sr f tr m h
    obtain ⟨he, hn, hp, hie, -⟩ := SaveMaterial_ok_shape h
    refine ⟨parseExpirationDate_ok_none_iff he, hn, ?_, hp, ?_, ?_⟩
    · rw [hn]; exact optStr_none_iff f.notes
    · rw [hp]; exact optStr_none_iff f.producedBy
    · rw [hie]; exact parseIsExpense_none_iff f.isExpense
  · intro t uid now sr f q hq hne hd
    unfold SaveMaterial
    rw [hq, parseExpirationDate_fails hne hd]

/-- C4 witness: the amended theorem applied to a request with every
optional field present and to a request with malformed expiration
text. -/
theorem claim4_optional_fields_witness :
    ((materialAllOptions.expirationDate = none ↔ formAllOptions.expirationDate = "") ∧
     materialAllOptions.notes = optStr formAllOptions.notes ∧
     (materialAllOptions.notes = none ↔ formAllOptions.notes = "") ∧
     materialAllOptions.producedBy = optStr formAllOptions.producedBy ∧
     (materialAllOptions.producedBy = none ↔ formAllOptions.producedBy = "") ∧
     (materialAllOptions.isExpense = none ↔ formAllOptions.isExpense ≠ "true")) ∧
    SaveMaterial sampleTables "u" 7 none { sampleForm with expirationDate := "zz" }
      = ([], Except.error (.validation ⟨.PARSE_FAILED, "expiration_date"⟩)) :=
  ⟨claim4_optional_fields.1 sampleTables "u" 7 none formAllOptions
      [MAction.createMaterial, MAction.saveMaterial] materialAllOptions (by decide),
   claim4_optional_fields.2 sampleTables "u" 7 none _ 5 (by decide) (by decide) (by decide)⟩

/-- C6: for a request of category seed whose plant_type code is not in
the plant-type table (and whose quantity and expiration inputs pass the
checks that run first), the handler fails with INVALID_OPTION on field
plant_type and the empty trace shows no Material is constructed, no save
is issued and no transition record can have been produced. -/
theorem claim6_seed_unknown_plant_type (t : LookupTables) (uid : String) (now : Nat)
    (sr : Option String) (f : MaterialForm) (q : Rat) (ed : Option Date)
    (hq : parseFloat f.quantity = some q)
    (he : parseExpirationDate f.expirationDate = Except.ok ed)
    (hc : f.materialTypeParam = materialTypeSeedCode)
    (hp : f.plantType ∉ t.plantTypes) :
    SaveMaterial t uid now sr f
      = ([], Except.error (.validation ⟨.INVALID_OPTION, "plant_type"⟩)) := by
  have hr : resolveMaterialType t f = Except.error ⟨.INVALID_OPTION, "plant_type"⟩ := by
    unfold resolveMaterialType GetPlantType
    simp [hc, hp]
  unfold SaveMaterial
  rw [hq, he, hr]

/-- C6 witness: the theorem applied to the plant-type code "weed", which
the sample table does not contain. -/
theorem claim6_seed_unknown_plant_type_witness :
    SaveMaterial sampleTables "u" 7 none { sampleForm with plantType := "weed" }
      = ([], Except.error (.validation ⟨.INVALID_OPTION, "plant_type"⟩)) :=
  claim6_seed_unknown_plant_type sampleTables "u" 7 none _ 5 none
    (by decide) (by decide) (by decide) (by decide)

/-- C10: every Material a SaveMaterial request produces has isExpense
either absent or true, and it is true exactly when the raw is_expense
input equals "true"; a stored false value is unreachable through this
handler. -/
theorem claim10_is_expense_never_false (t : LookupTables) (uid : String) (now : Nat)
    (sr : Option String) (f : MaterialForm) (tr : List MAction) (m : Material)
    (h : SaveMaterial t uid now sr f = (tr, Except.ok m)) :
    (m.isExpense = none ∨ m.isExpense = some true) ∧
    (m.isExpense = some true ↔ f.isExpense = "true") := by
  obtain ⟨-, -, -, hie, -⟩ := SaveMaterial_ok_shape h
  constructor
  · rw [hie]
    exact parseIsExpense_cases f.isExpense
  · rw [hie]
    unfold parseIsExpense
    by_cases hs : f.isExpense = "true"
    · rw [hs]
      decide
    · simp [hs]

/-- C10 witness: the theorem applied to a request whose is_expense input
is "true". -/
theorem claim10_is_expense_never_false_witness :
    (materialAllOptions.isExpense = none ∨ materialAllOptions.isExpense = some true) ∧
    (materialAllOptions.isExpense = some true ↔ formAllOptions.isExpense = "true") :=
  claim10_is_expense_never_false sampleTables "u" 7 none formAllOptions
    [MAction.createMaterial, MAction.saveMaterial] materialAllOptions (by decide)

/-! ## Trace-shape lemmas for the farm and note handlers -/

theorem SaveFarm_trace_cases (t : LookupTables) (uid name ft la lo cc cic : String)
    (sr : Option String) :
    (SaveFarm t uid name ft la lo cc cic sr).fst = [] ∨
    (SaveFarm t uid name ft la lo cc cic sr).fst = [Action.saveFarm] := by
  cases h0 : CreateFarm uid name ft with
  | error e => left; simp [SaveFarm, h0]
  | ok farm0 =>
    cases h1 : farm0.changeGeoLocation la lo with
    | error e => left; simp [SaveFarm, h0, h1]
    | ok farm1 =>
      cases h2 : Farm.changeRegion t farm1 cc cic with
      | error e => left; simp [SaveFarm, h0, h1, h2]
      | ok farm2 =>
        cases sr with
        | none => right; simp [SaveFarm, h0, h1, h2]
        | some e => right; simp [SaveFarm, h0, h1, h2]

theorem SaveReservoirNotes_trace_cases (fr : Except String Reservoir)
    (ff : Except String Farm) (nu : String) (now : Nat)
    (sr sf : Option String) (content : String) :
    (SaveReservoirNotes fr ff nu now sr sf content).fst = [Action.findReservoirByID] ∨
    (SaveReservoirNotes fr ff nu now sr sf content).fst
      = [Action.findReservoirByID, Action.findFarmByID] ∨
    (SaveReservoirNotes fr ff nu now sr sf content).fst
      = [Action.findReservoirByID, Action.findFarmByID, Action.addNewNote,
         Action.changeReservoirInformation, Action.saveReservoir] ∨
    (SaveReservoirNotes fr ff nu now sr sf content).fst
      = [Action.findReservoirByID, Action.findFarmByID, Action.addNewNote,
         Action.changeReservoirInformation, Action.saveReservoir, Action.saveFarm] := by
  cases fr with
  | error e => simp [SaveReservoirNotes]
  | ok r =>
    cases ff with
    | error e => simp [SaveReservoirNotes]
    | ok farm =>
      by_cases hc : content = ""
      · simp [SaveReservoirNotes, hc]
      · cases sr with
        | some e => simp [SaveReservoirNotes, hc]
        | none => cases sf with
          | some e => simp [SaveReservoirNotes, hc]
          | none => simp [SaveReservoirNotes, hc]

theorem RemoveReservoirNotes_trace_cases (fr : Except String Reservoir)
    (ff : Except String Farm) (nid : String) (sr sf : Option String) :
    (RemoveReservoirNotes fr ff nid sr sf).fst = [Action.findReservoirByID] ∨
    (RemoveReservoirNotes fr ff nid sr sf).fst
      = [Action.findReservoirByID, Action.findFarmByID] ∨
    (RemoveReservoirNotes fr ff nid sr sf).fst
      = [Action.findReservoirByID, Action.findFarmByID, Action.removeNote] ∨
    (RemoveReservoirNotes fr ff nid sr sf).fst
      = [Action.findReservoirByID, Action.findFarmByID, Action.removeNote,
         Action.changeReservoirInformation] ∨
    (RemoveReservoirNotes fr ff nid sr sf).fst
      = [Action.findReservoirByID, Action.findFarmByID, Action.removeNote,
         Action.changeReservoirInformation, Action.saveReservoir] ∨
    (RemoveReservoirNotes fr ff nid sr sf).fst
      = [Action.findReservoirByID, Action.findFarmByID, Action.removeNote,
         Action.changeReservoirInformation, Action.saveReservoir, Action.saveFarm] := by
  cases fr with
  | error e => simp [RemoveReservoirNotes]
  | ok r =>
    cases ff with
    | error e => simp [RemoveReservoirNotes]
    | ok farm =>
      cases h1 : r.removeNote nid with
      | error e => simp [RemoveReservoirNotes, h1]
      | ok r2 =>
        cases h2 : farm.changeReservoirInformation r2 with
        | error e => simp [RemoveReservoirNotes, h1, h2]
        | ok f2 =>
          cases sr with
          | some e => simp [RemoveReservoirNotes, h1, h2]
          | none => cases sf with
            | some e => simp [RemoveReservoirNotes, h1, h2]
            | none => simp [RemoveReservoirNotes, h1, h2]

theorem SaveAreaNotes_trace_cases (fa : Except String Area)
    (ff : Except String Farm) (nu : String) (now : Nat)
    (sr sf : Option String) (content : String) :
    (SaveAreaNotes fa ff nu now sr sf content).fst = [Action.findAreaByID] ∨
    (SaveAreaNotes fa ff nu now sr sf content).fst
      = [Action.findAreaByID, Action.findFarmByID] ∨
    (SaveAreaNotes fa ff nu now sr sf content).fst
      = [Action.findAreaByID, Action.findFarmByID, Action.addNewNote,
         Action.changeAreaInformation, Action.saveArea] ∨
    (SaveAreaNotes fa ff nu now sr sf content).fst
      = [Action.findAreaByID, Action.findFarmByID, Action.addNewNote,
         Action.changeAreaInformation, Action.saveArea, Action.saveFarm] := by
  cases fa with
  | error e => simp [SaveAreaNotes]
  | ok a =>
    cases ff with
    | error e => simp [SaveAreaNotes]
    | ok farm =>
      by_cases hc : content = ""
      · simp [SaveAreaNotes, hc]
      · cases sr with
        | some e => simp [SaveAreaNotes, hc]
        | none => cases sf with
          | some e => simp [SaveAreaNotes, hc]
          | none => simp [SaveAreaNotes, hc]

theorem RemoveAreaNotes_trace_cases (fa : Except String Area)
    (ff : Except String Farm) (nid : String) (sr sf : Option String) :
    (RemoveAreaNotes fa ff nid sr sf).fst = [Action.findAreaByID] ∨
    (RemoveAreaNotes fa ff nid sr sf).fst
      = [Action.findAreaByID, Action.findFarmByID] ∨
    (RemoveAreaNotes fa ff nid sr sf).fst
      = [Action.findAreaByID, Action.findFarmByID, Action.removeNote] ∨
    (RemoveAreaNotes fa ff nid sr sf).fst
      = [Action.findAreaByID, Action.findFarmByID, Action.removeNote,
         Action.changeAreaInformation] ∨
    (RemoveAreaNotes fa ff nid sr sf).fst
      = [Action.findAreaByID, Action.findFarmByID, Action.removeNote,
         Action.changeAreaInformation, Action.saveArea] ∨
    (RemoveAreaNotes fa ff nid sr sf).fst
      = [Action.findAreaByID, Action.findFarmByID, Action.removeNote,
         Action.changeAreaInformation, Action.saveArea, Action.saveFarm] := by
  cases fa with
  | error e => simp [RemoveAreaNotes]
  | ok a =>
    cases ff with
    | error e => simp [RemoveAreaNotes]
    | ok farm =>
      cases h1 : a.removeNote nid with
      | error e => simp [RemoveAreaNotes, h1]
      | ok a2 =>
        cases h2 : farm.changeAreaInformation a2 with
        | error e => simp [RemoveAreaNotes, h1, h2]
        | ok f2 =>
          cases sr with
          | some e => simp [RemoveAreaNotes, h1, h2]
          | none => cases sf with
            | some e => simp [RemoveAreaNotes, h1, h2]
            | none => simp [RemoveAreaNotes, h1, h2]

/-! ## Claims on the farm and note handlers -/

/-- C2 counterexample: a reservoir-note save failure carrying the
repository error "disk full" is not resurfaced: SaveReservoirNotes
replaces it with the generic internal server error, a different error
value (farm_server.go lines 272 to 275). -/
theorem claim2_counterexample_save_error_replaced :
    (SaveReservoirNotes (.ok sampleReservoir) (.ok sampleFarmMirrored) "n2" 5
        (some "disk full") none "hello").snd = Except.error .internalServer ∧
    HandlerErr.internalServer ≠ HandlerErr.repoErr "disk full" := by
  decide

/-- C2 amended: SaveFarm resurfaces a save error unchanged, but
SaveReservoirNotes replaces a save error with the generic internal
server error; neither handler retries a save: each trace holds at most
one save call per repository. -/
theorem claim2_save_error_propagation :
    (∀ (t : LookupTables) (uid name ft la lo cc cic e : String)
       (farm0 farm1 farm2 : Farm),
       CreateFarm uid name ft = Except.ok farm0 →
       farm0.changeGeoLocation la lo = Except.ok farm1 →
       Farm.changeRegion t farm1 cc cic = Except.ok farm2 →
       SaveFarm t uid name ft la lo cc cic (some e)
         = ([Action.saveFarm], Except.error (.repoErr e))) ∧
    (∀ (r : Reservoir) (farm : Farm) (nu : String) (now : Nat)
       (e : String) (sf : Option String) (content : String),
       content ≠ "" →
       (SaveReservoirNotes (.ok r) (.ok farm) nu now (some e) sf content).snd
         = Except.error .internalServer) ∧
    (∀ t uid name ft la lo cc cic sr,
       (SaveFarm t uid name ft la lo cc cic sr).fst.count Action.saveFarm ≤ 1) ∧
    (∀ fr ff nu now sr sf content,
       (SaveReservoirNotes fr ff nu now sr sf content).fst.count Action.saveReservoir ≤ 1) := by
  refine ⟨?_, ?_, ?_, ?_⟩
  · intro t uid name ft la lo cc cic e farm0 farm1 farm2 h0 h1 h2
    simp [SaveFarm, h0, h1, h2]
  · intro r farm nu now e sf content hc
    simp [SaveReservoirNotes, hc]
  · intro t uid name ft la lo cc cic sr
    rcases SaveFarm_trace_cases t uid name ft la lo cc cic sr with h | h <;>
      rw [h] <;> decide
  · intro fr ff nu now sr sf content
    rcases SaveReservoirNotes_trace_cases fr ff nu now sr sf content with h | h | h | h <;>
      rw [h] <;> decide

/-- C2 witness: the amended theorem applied to a concrete farm request
whose save fails with "boom" and a concrete reservoir-note request whose
reservoir save fails with "boom". -/
theorem claim2_save_error_propagation_witness :
    SaveFarm sampleTables "f9" "F9" "organic" "5" "100" "ID" "JK" (some "boom")
      = ([Action.saveFarm], Except.error (.repoErr "boom")) ∧
    (SaveReservoirNotes (.ok sampleReservoir) (.ok sampleFarmMirrored) "n2" 5
        (some "boom") none "hi").snd = Except.error .internalServer :=
  ⟨claim2_save_error_propagation.1 sampleTables "f9" "F9" "organic" "5" "100" "ID" "JK"
      "boom" ⟨"f9", "F9", [], []⟩ ⟨"f9", "F9", [], []⟩ ⟨"f9", "F9", [], []⟩
      (by decide) (by decide) (by decide),
   claim2_save_error_propagation.2.1 sampleReservoir sampleFarmMirrored "n2" 5
      "boom" none "hi" (by decide)⟩

/-- C5: in all four note handlers, every repository save call in the
trace happens only after the child note mutation call followed by the
Farm-side mirror synchronization call, for every environment. -/
theorem claim5_sync_between_mutation_and_saves :
    (∀ fr ff nu now sr sf content,
       noteSyncDiscipline (SaveReservoirNotes fr ff nu now sr sf content).fst = true) ∧
    (∀ fr ff nid sr sf,
       noteSyncDiscipline (RemoveReservoirNotes fr ff nid sr sf).fst = true) ∧
    (∀ fa ff nu now sr sf content,
       noteSyncDiscipline (SaveAreaNotes fa ff nu now sr sf content).fst = true) ∧
    (∀ fa ff nid sr sf,
       noteSyncDiscipline (RemoveAreaNotes fa ff nid sr sf).fst = true) := by
  refine ⟨?_, ?_, ?_, ?_⟩
  · intro fr ff nu now sr sf content
    rcases SaveReservoirNotes_trace_cases fr ff nu now sr sf content with h | h | h | h <;>
      rw [h] <;> decide
  · intro fr ff nid sr sf
    rcases RemoveReservoirNotes_trace_cases fr ff nid sr sf with h | h | h | h | h | h <;>
      rw [h] <;> decide
  · intro fa ff nu now sr sf content
    rcases SaveAreaNotes_trace_cases fa ff nu now sr sf content with h | h | h | h <;>
      rw [h] <;> decide
  · intro fa ff nid sr sf
    rcases RemoveAreaNotes_trace_cases fa ff nid sr sf with h | h | h | h | h | h <;>
      rw [h] <;> decide

/-- C8: with the farm and the area both found, GetAreaPhotos fails
NOT_FOUND on entity photo and serves no file when the stored photo
filename is empty, and serves the stored file from the upload directory
when it is not. -/
theorem claim8_photo_presence (up : String) (farm : Farm) (area : Area) :
    (area.photo.filename = "" →
       GetAreaPhotos up (.ok farm) (.ok area)
         = Except.error (.validation ⟨.NOT_FOUND, "photo"⟩)) ∧
    (area.photo.filename ≠ "" →
       GetAreaPhotos up (.ok farm) (.ok area)
         = Except.ok (up ++ "/" ++ area.photo.filename)) := by
  constructor
  · intro h
    simp [GetAreaPhotos, h]
  · intro h
    simp [GetAreaPhotos, h]

/-- C8 witness: the theorem applied to an area with no photo and to an
area holding the stored file p.jpg. -/
theorem claim8_photo_presence_witness :
    GetAreaPhotos "upload" (.ok sampleFarmEmpty) (.ok sampleAreaNoPhoto)
      = Except.error (.validation ⟨.NOT_FOUND, "photo"⟩) ∧
    GetAreaPhotos "upload" (.ok sampleFarmEmpty) (.ok sampleArea)
      = Except.ok ("upload" ++ "/" ++ sampleArea.photo.filename) :=
  ⟨(claim8_photo_presence "upload" sampleFarmEmpty sampleAreaNoPhoto).1 (by decide),
   (claim8_photo_presence "upload" sampleFarmEmpty sampleArea).2 (by decide)⟩

/-- C9: the add-note handlers discard the outcome of the Farm mirror
synchronization: when the farm holds no mirror entry for the child (so
the sync fails NOT_FOUND), both saves are still issued and the handler
reports success; the remove-note handlers instead abort on the failed
sync with no save issued. -/
theorem claim9_sync_result_discarded_in_add :
    (∀ (r : Reservoir) (farm : Farm) (nu : String) (now : Nat) (content : String),
       content ≠ "" →
       (farm.reservoirs.any fun x => x.uid == r.uid) = false →
       SaveReservoirNotes (.ok r) (.ok farm) nu now none none content
         = ([Action.findReservoirByID, Action.findFarmByID, Action.addNewNote,
             Action.changeReservoirInformation, Action.saveReservoir, Action.saveFarm],
            Except.ok { r with notes := ⟨nu, content, now⟩ :: r.notes })) ∧
    (∀ (a : Area) (farm : Farm) (nu : String) (now : Nat) (content : String),
       content ≠ "" →
       (farm.areas.any fun x => x.uid == a.uid) = false →
       SaveAreaNotes (.ok a) (.ok farm) nu now none none content
         = ([Action.findAreaByID, Action.findFarmByID, Action.addNewNote,
             Action.changeAreaInformation, Action.saveArea, Action.saveFarm],
            Except.ok { a with notes := ⟨nu, content, now⟩ :: a.notes })) ∧
    (∀ (r : Reservoir) (farm : Farm) (nid : String),
       (r.notes.any fun n => n.uid == nid) = true →
       (farm.reservoirs.any fun x => x.uid == r.uid) = false →
       RemoveReservoirNotes (.ok r) (.ok farm) nid none none
         = ([Action.findReservoirByID, Action.findFarmByID, Action.removeNote,
             Action.changeReservoirInformation],
            Except.error (.validation ⟨.NOT_FOUND, "reservoir"⟩))) := by
  refine ⟨?_, ?_, ?_⟩
  · intro r farm nu now content hc h2
    have hadd : r.addNewNote nu now content
        = Except.ok { r with notes := ⟨nu, content, now⟩ :: r.notes } := by
      unfold Reservoir.addNewNote
      rw [if_neg hc]
    have hsync : farm.changeReservoirInformation
        { r with notes := ⟨nu, content, now⟩ :: r.notes }
        = Except.error ⟨.NOT_FOUND, "reservoir"⟩ := by
      unfold Farm.changeReservoirInformation
      simp only [h2]
      simp
    simp [SaveReservoirNotes, hc, hadd, hsync]
  · intro a farm nu now content hc h2
    have hadd : a.addNewNote nu now content
        = Except.ok { a with notes := ⟨nu, content, now⟩ :: a.notes } := by
      unfold Area.addNewNote
      rw [if_neg hc]
    have hsync : farm.changeAreaInformation
        { a with notes := ⟨nu, content, now⟩ :: a.notes }
        = Except.error ⟨.NOT_FOUND, "area"⟩ := by
      unfold Farm.changeAreaInformation
      simp only [h2]
      simp
    simp [SaveAreaNotes, hc, hadd, hsync]
  · intro r farm nid h1 h2
    have hrm : r.removeNote nid
        = Except.ok { r with notes := r.notes.filter (fun n => n.uid != nid) } := by
      unfold Reservoir.removeNote
      rw [h1]
      simp
    have hsync : farm.changeReservoirInformation
        { r with notes := r.notes.filter (fun n => n.uid != nid) }
        = Except.error ⟨.NOT_FOUND, "reservoir"⟩ := by
      unfold Farm.changeReservoirInformation
      simp only [h2]
      simp
    simp [RemoveReservoirNotes, hrm, hsync]

/-- C9 witness: the theorem applied to a reservoir, an area and a farm
that holds no mirror entries, so each sync call fails. -/
theorem claim9_sync_result_discarded_in_add_witness :
    SaveReservoirNotes (.ok sampleReservoir) (.ok sampleFarmEmpty) "n2" 5 none none "hello"
      = ([Action.findReservoirByID, Action.findFarmByID, Action.addNewNote,
          Action.changeReservoirInformation, Action.saveReservoir, Action.saveFarm],
         Except.ok { sampleReservoir with
           notes := ⟨"n2", "hello", 5⟩ :: sampleReservoir.notes }) ∧
    SaveAreaNotes (.ok sampleArea) (.ok sampleFarmEmpty) "n2" 5 none none "hello"
      = ([Action.findAreaByID, Action.findFarmByID, Action.addNewNote,
          Action.changeAreaInformation, Action.saveArea, Action.saveFarm],
         Except.ok { sampleArea with
           notes := ⟨"n2", "hello", 5⟩ :: sampleArea.notes }) ∧
    RemoveReservoirNotes (.ok sampleReservoir) (.ok sampleFarmEmpty) "note1" none none
      = ([Action.findReservoirByID, Action.findFarmByID, Action.removeNote,
          Action.changeReservoirInformation],
         Except.error (.validation ⟨.NOT_FOUND, "reservoir"⟩)) :=
  ⟨claim9_sync_result_discarded_in_add.1 sampleReservoir sampleFarmEmpty "n2" 5 "hello"
      (by decide) (by decide),
   claim9_sync_result_discarded_in_add.2.1 sampleArea sampleFarmEmpty "n2" 5 "hello"
      (by decide) (by decide),
   claim9_sync_result_discarded_in_add.2.2 sampleReservoir sampleFarmEmpty "note1"
      (by decide) (by decide)⟩

/-! ## Claim on the material transition records -/

/-- C7 counterexample: two Materials that differ in their initial
isExpense value produce identical creation records, because the
MaterialCreated struct of material_events.go carries no isExpense field;
so the creation record does not carry all initial field values. -/
theorem claim7_counterexample_created_misses_is_expense :
    materialExpenseTrue.toCreatedEvent = materialExpenseAbsent.toCreatedEvent ∧
    materialExpenseTrue ≠ materialExpenseAbsent ∧
    materialExpenseTrue.isExpense ≠ materialExpenseAbsent.isExpense := by
  decide

/-- C7 amended: each of the eight mutation kinds has a record type
(kind assignment is surjective over the eight record types); every
record is fully determined by the aggregate identifier and the new
value it carries; and the creation record determines every initial
field of the material except isExpense, which it does not carry. -/
theorem claim7_records_carry_id_and_value :
    Function.Surjective MaterialEvent.kind ∧
    (∀ e1 e2 : MaterialEvent,
       e1.aggregateUID = e2.aggregateUID → e1.value = e2.value → e1 = e2) ∧
    (∀ m1 m2 : Material, m1.toCreatedEvent = m2.toCreatedEvent →
       m1.uid = m2.uid ∧ m1.name = m2.name ∧ m1.pricePerUnit = m2.pricePerUnit ∧
       m1.typ = m2.typ ∧ m1.quantity = m2.quantity ∧
       m1.expirationDate = m2.expirationDate ∧ m1.notes = m2.notes ∧
       m1.producedBy = m2.producedBy ∧ m1.createdDate = m2.createdDate) := by
  refine ⟨?_, ?_, ?_⟩
  · intro k
    cases k with
    | creation => exact ⟨.created ⟨"", "", ⟨"", ""⟩, none, ⟨0, ""⟩, none, none, none, 0⟩, rfl⟩
    | nameChange => exact ⟨.nameChanged ⟨"", ""⟩, rfl⟩
    | priceChange => exact ⟨.priceChanged ⟨"", ⟨"", ""⟩⟩, rfl⟩
    | quantityChange => exact ⟨.quantityChanged ⟨"", ⟨0, ""⟩⟩, rfl⟩
    | typeChange => exact ⟨.typeChanged ⟨"", .other⟩, rfl⟩
    | expirationChange => exact ⟨.expirationDateChanged ⟨"", ⟨0, 0, 0⟩⟩, rfl⟩
    | notesChange => exact ⟨.notesChanged ⟨"", ""⟩, rfl⟩
    | producedByChange => exact ⟨.producedByChanged ⟨"", ""⟩, rfl⟩
  · intro e1 e2 h1 h2
    cases e1 <;> cases e2 <;>
      simp [MaterialEvent.aggregateUID, MaterialEvent.value] at h1 h2 ⊢ <;>
      (rename_i a b; cases a; cases b; simp_all)
  · intro m1 m2 h
    unfold Material.toCreatedEvent at h
    simp [MaterialCreated.mk.injEq] at h
    exact h

/-- C7 witness: the amended theorem applied to the notes-change kind,
two equal concrete records and two concrete materials with equal
creation records. -/
theorem claim7_records_carry_id_and_value_witness :
    (∃ e : MaterialEvent, e.kind = .notesChange) ∧
    MaterialEvent.notesChanged ⟨"u", "x"⟩ = MaterialEvent.notesChanged ⟨"u", "x"⟩ ∧
    materialExpenseTrue.uid = materialExpenseAbsent.uid :=
  ⟨claim7_records_carry_id_and_value.1 .notesChange,
   claim7_records_carry_id_and_value.2.1 (.notesChanged ⟨"u", "x"⟩)
     (.notesChanged ⟨"u", "x"⟩) rfl rfl,
   (claim7_records_carry_id_and_value.2.2 materialExpenseTrue materialExpenseAbsent
     (by decide)).1⟩

end Tania
